import Mathlib

/-!
Verification of the SAFE-LINK URL risk scanner: a shallow embedding of the
evidence aggregator (`F_Data`), the verdict scorer (`F_VF`) and their
helpers, together with theorems settling the specification's claims.

Network and file-system effects are modelled by a `World` record of
outcomes: every fallible external call (DNS, the two geolocation providers,
HTTP, TLS, WHOIS, and the uncaught report-file write) is a field returning
`Except String _`, so the aggregator becomes a pure function of the world
and its input string.  The host-name
extraction performed by the platform URL parser (`new URL(u).hostname`,
which throws on a malformed URL) is a parameter `getHost : String → Option
String`; all theorems hold for every such parser.  JavaScript string
primitives (`trim`, `toLowerCase`, `startsWith`) are modelled on the ASCII
range, which covers every string the program compares against.
-/

namespace SafeLink

/-- Model of JS `String.prototype.toLowerCase` on the ASCII range. -/
def lowerChar (c : Char) : Char :=
  if 'A' ≤ c ∧ c ≤ 'Z' then Char.ofNat (c.toNat + 32) else c

/-- ASCII lower-casing of a string. -/
def jsToLower (s : String) : String :=
  ⟨s.data.map lowerChar⟩

/-- Model of JS `String.prototype.startsWith`. -/
def jsStartsWith (s pre : String) : Bool :=
  pre.data.isPrefixOf s.data

/-- ASCII whitespace trimmed by JS `String.prototype.trim` (the JS set also
holds non-ASCII space characters, irrelevant to the strings compared here). -/
def isWsChar (c : Char) : Bool :=
  c = ' ' ∨ c = '\t' ∨ c = '\n' ∨ c = '\r' ∨ c = '\x0b' ∨ c = '\x0c'

/-- Model of JS `String.prototype.trim`: drop whitespace at both ends. -/
def jsTrim (s : String) : String :=
  ⟨((s.data.dropWhile isWsChar).reverse.dropWhile isWsChar).reverse⟩

/-- The regex test `/^https?:\/\//i.test(s)`: does `s` start with
`http://` or `https://`, matched case-insensitively? -/
def hasHttpScheme (s : String) : Bool :=
  jsStartsWith (jsToLower s) "http://" || jsStartsWith (jsToLower s) "https://"

/-- `normalizeUrl` from the source: trim, then prepend `https://` when the
string has no `http(s)://` scheme. -/
def normalizeUrl (raw : String) : String :=
  let s := jsTrim raw
  if ¬ hasHttpScheme s then "https://" ++ s else s

/-- `stripWww` from the source: remove one leading `www.` label. -/
def stripWww (host : String) : String :=
  if jsStartsWith host "www." then ⟨host.data.drop 4⟩ else host

/-- Is a character kept verbatim by `safeFilename` (regex class
`[a-zA-Z0-9._-]`)? -/
def isSafeChar (c : Char) : Bool :=
  ('a' ≤ c ∧ c ≤ 'z') ∨ ('A' ≤ c ∧ c ≤ 'Z') ∨ ('0' ≤ c ∧ c ≤ '9') ∨
    c = '.' ∨ c = '_' ∨ c = '-'

/-- Replace every maximal run of unsafe characters by one underscore; the
flag records whether the previous character was part of such a run. -/
def safeFilenameAux : Bool → List Char → List Char
  | _, [] => []
  | prevBad, c :: cs =>
    if isSafeChar c then c :: safeFilenameAux false cs
    else if prevBad then safeFilenameAux true cs
    else '_' :: safeFilenameAux true cs

/-- `safeFilename` from the source: `s.replace(/[^a-zA-Z0-9._-]+/g, "_")`. -/
def safeFilename (s : String) : String :=
  ⟨safeFilenameAux false s.data⟩

/-- `isHttps` check of the scorer: `d.targetUrl.toLowerCase().startsWith("https://")`. -/
def isHttps (t : String) : Bool :=
  jsStartsWith (jsToLower t) "https://"

-- -------------------------------
-- Types (from the source's type block)
-- -------------------------------

/-- `Geo` record of the source; every field is optional there. -/
structure Geo where
  city : Option String
  region : Option String
  country : Option String
  isp : Option String
  source : Option String
deriving DecidableEq

/-- Geolocation-provider payload before the aggregator tags it with its
`source` provider name (the source builds `Geo` from the provider JSON). -/
structure GeoData where
  city : Option String
  region : Option String
  country : Option String
  isp : Option String
deriving DecidableEq

/-- `HttpInfo` of the source.  The source stores the elapsed time as
`(end - start) / 1000` seconds; the embedding keeps the integral
millisecond count, which no scoring rule ever reads. -/
structure HttpInfo where
  status : Nat
  timeMs : Nat
  finalUrl : String
  headers : List (String × String)
deriving DecidableEq

/-- `TlsInfo` of the source (leaf-certificate fields, all optional). -/
structure TlsInfo where
  subject : Option String
  issuer : Option String
  valid_from : Option String
  valid_to : Option String
  fingerprint256 : Option String
deriving DecidableEq

/-- WHOIS payload `Record<string, any>`: a field/value mapping. -/
abbrev WhoisData := List (String × String)

/-- `RawData` of the source — the evidence record. -/
structure RawData where
  targetUrl : String
  host : String
  whoisDomain : String
  ips : List String
  geo : Option Geo
  http : Option HttpInfo
  tls : Option TlsInfo
  whois : Option WhoisData
  errors : List String
  savedFilePath : String
deriving DecidableEq

/-- Verdict label, `"SAFE" | "CAUTION" | "RISKY"` in the source. -/
inductive Label where
  | SAFE
  | CAUTION
  | RISKY
deriving DecidableEq

/-- `Verdict` of the source: exactly the fields `stars`, `label`,
`reasons` (the source type has no score field). -/
structure Verdict where
  stars : Nat
  label : Label
  reasons : List String
deriving DecidableEq

/-- The spec's version of the Verdict record, which also carries the
accumulated risk score; written from the spec's words for comparison with
the source's `Verdict`. -/
structure VerdictSpec where
  score : Nat
  stars : Nat
  label : Label
  reasons : List String
deriving DecidableEq

/-- Forget the spec-only `score` field of a `VerdictSpec`. -/
def VerdictSpec.eraseScore (v : VerdictSpec) : Verdict :=
  ⟨v.stars, v.label, v.reasons⟩

-- -------------------------------
-- Verdict scorer F_VF, block by block
-- -------------------------------

/-- Scorer block 1 (`// HTTPS?`): penalty and reason for the scheme. -/
def cond1 (d : RawData) : Nat × List String :=
  if isHttps d.targetUrl then (0, ["Uses HTTPS"])
  else (3, ["Not using HTTPS"])

/-- Scorer block 2 (`// HTTP status`). -/
def cond2 (d : RawData) : Nat × List String :=
  match d.http with
  | some h =>
    if h.status ≥ 400 then (2, ["HTTP error status: " ++ Nat.repr h.status])
    else (0, ["HTTP status OK: " ++ Nat.repr h.status])
  | none => (2, ["HTTP request failed"])

/-- Scorer block 3 (`// Redirect mismatch`): the guard `d.http?.finalUrl`
is JS-truthy, so an absent `http` or an empty `finalUrl` skips the block;
a parser failure on `finalUrl` is caught and scored `+1`. -/
def cond3 (getHost : String → Option String) (d : RawData) : Nat × List String :=
  match d.http with
  | some h =>
    if h.finalUrl = "" then (0, [])
    else
      match getHost h.finalUrl with
      | some finalHost =>
        if stripWww finalHost ≠ stripWww d.host then
          (2, ["Redirected to different host: " ++ finalHost])
        else (0, [])
      | none => (1, ["Could not parse final redirect URL"])
  | none => (0, [])

/-- Scorer block 4 (`// Missing TLS`). -/
def cond4 (d : RawData) : Nat × List String :=
  match d.tls with
  | none => (3, ["No TLS certificate info"])
  | some _ => (0, ["TLS certificate present"])

/-- Scorer block 5 (`// Missing WHOIS`). -/
def cond5 (d : RawData) : Nat × List String :=
  match d.whois with
  | none => (1, ["WHOIS lookup missing or failed"])
  | some _ => (0, ["WHOIS data found"])

/-- Scorer block 6 (`// Errors`): a flat `+1` when any error was recorded,
and no reason at all otherwise. -/
def cond6 (d : RawData) : Nat × List String :=
  if d.errors.length ≠ 0 then
    (1, ["Errors encountered: " ++ Nat.repr d.errors.length])
  else (0, [])

/-- The accumulated risk score of `F_VF` (the mutable `score` of the
source, as the sum of the six blocks in evaluation order). -/
def vfScore (getHost : String → Option String) (d : RawData) : Nat :=
  (cond1 d).1 + (cond2 d).1 + (cond3 getHost d).1 + (cond4 d).1 +
    (cond5 d).1 + (cond6 d).1

/-- The reasons accumulated by `F_VF` before the final `slice(0, 8)`. -/
def allReasons (getHost : String → Option String) (d : RawData) : List String :=
  (cond1 d).2 ++ (cond2 d).2 ++ (cond3 getHost d).2 ++ (cond4 d).2 ++
    (cond5 d).2 ++ (cond6 d).2

/-- The `// Score → Stars/Label` ladder at the end of `F_VF`. -/
def scoreToStarsLabel (score : Nat) : Nat × Label :=
  if score ≤ 1 then (5, Label.SAFE)
  else if score ≤ 3 then (4, Label.SAFE)
  else if score ≤ 5 then (3, Label.CAUTION)
  else if score ≤ 7 then (2, Label.RISKY)
  else (1, Label.RISKY)

/-- `F_VF` from the source: accumulate score and reasons over the six
blocks in order, map the score through the star/label ladder, and return
the reasons truncated by `slice(0, 8)`. -/
def F_VF (getHost : String → Option String) (d : RawData) : Verdict :=
  let score := vfScore getHost d
  let reasons := allReasons getHost d
  let sl := scoreToStarsLabel score
  ⟨sl.1, sl.2, reasons.take 8⟩

-- -------------------------------
-- The world of external lookup outcomes
-- -------------------------------

/-- Outcomes of the external calls `F_Data` can make, one field per
fallible boundary: `dns` is `dns.lookup` keyed by host, `ipinfo` and
`fallback` are the two geolocation providers keyed by IP, `http` is
`httpRequest` keyed by URL, `tlsCert` is `getTlsCert` keyed by host,
`whoisQ` is the WHOIS query keyed by apex domain.  `fsWrite` is the
report-file write (`fs.mkdir` of the output directory followed by
`fs.writeFile`, keyed here by the saved file path) — the source wraps it
in no try/catch, so its rejection propagates out of `F_Data`.
`ipinfoToken` is the `IPINFO_TOKEN` environment value (`""` when unset)
and `stamp` the `nowStamp()` timestamp used in the report file name. -/
structure World where
  ipinfoToken : String
  dns : String → Except String (List String)
  ipinfo : String → Except String GeoData
  fallback : String → Except String GeoData
  http : String → Except String HttpInfo
  tlsCert : String → Except String TlsInfo
  whoisQ : String → Except String WhoisData
  fsWrite : String → Except String Unit
  stamp : String

/-- Is an `Except` outcome a success? -/
def isOkE {ε α : Type} : Except ε α → Bool
  | Except.ok _ => true
  | Except.error _ => false

/-- The success payload of an `Except`, if any. -/
def okValue {ε α : Type} : Except ε α → Option α
  | Except.ok a => some a
  | Except.error _ => none

/-- Tag a provider payload with its `source` provider name, as the
aggregator does when building `geo`. -/
def withSource (g : GeoData) (src : String) : Geo :=
  ⟨g.city, g.region, g.country, g.isp, some src⟩

/-- Result of the `// GEO` block when at least one IP resolved: the `geo`
value, the error entries pushed, and which providers were attempted
(instrumentation of lines 271-287 of the source). -/
structure GeoStepResult where
  geo : Option Geo
  errors : List String
  triedPrimary : Bool
  triedFallback : Bool
deriving DecidableEq

/-- The `// GEO` block of `F_Data` for the first resolved IP: try the
credentialed `ipInfoLookup` only when `IPINFO_TOKEN` is truthy, recording
a `GEO ERROR (ipinfo)` entry on failure; then, only when `geo` is still
unset, try `ipGeoFallback`, recording a `GEO ERROR (fallback)` entry on
failure. -/
def geoStep (token : String) (primary fb : Except String GeoData) : GeoStepResult :=
  let step1 : Option Geo × List String × Bool :=
    if token ≠ "" then
      match primary with
      | Except.ok g => (some (withSource g "ipinfo"), [], true)
      | Except.error e => (none, ["GEO ERROR (ipinfo): " ++ e], true)
    else (none, [], false)
  match step1 with
  | (some g, errs, tp) => ⟨some g, errs, tp, false⟩
  | (none, errs, tp) =>
    match fb with
    | Except.ok g => ⟨some (withSource g "ipwho.is"), errs, tp, true⟩
    | Except.error e => ⟨none, errs ++ ["GEO ERROR (fallback): " ++ e], tp, true⟩

/-- The `// DNS/IP` block: the resolved address list (empty on failure)
and the `IP ERROR` entry pushed when `dns.lookup` throws. -/
def dnsStep (w : World) (host : String) : List String × List String :=
  match w.dns host with
  | Except.ok results => (results, [])
  | Except.error e => ([], ["IP ERROR: " ++ e])

/-- The `// GEO` block including its guard: geolocate the first IP when
any resolved, otherwise push the no-addresses entry. -/
def geoPart (w : World) (ips : List String) : Option Geo × List String :=
  match ips with
  | ip :: _ =>
    let g := geoStep w.ipinfoToken (w.ipinfo ip) (w.fallback ip)
    (g.geo, g.errors)
  | [] => (none, ["No IP addresses resolved from DNS"])

/-- The `// HTTP` block: `httpRequest(targetUrl)` with its catch. -/
def httpPart (w : World) (targetUrl : String) : Option HttpInfo × List String :=
  match w.http targetUrl with
  | Except.ok h => (some h, [])
  | Except.error e => (none, ["HTTP ERROR: " ++ e])

/-- The `// TLS` block: `getTlsCert(host)` with its catch (the source
retains the leaf-certificate fields of the returned certificate). -/
def tlsPart (w : World) (host : String) : Option TlsInfo × List String :=
  match w.tlsCert host with
  | Except.ok t => (some t, [])
  | Except.error e => (none, ["SSL ERROR: " ++ e])

/-- The `// WHOIS` block: `whois(whoisDomain)` with its catch. -/
def whoisPart (w : World) (whoisDomain : String) : Option WhoisData × List String :=
  match w.whoisQ whoisDomain with
  | Except.ok d => (some d, [])
  | Except.error e => (none, ["WHOIS ERROR: " ++ e])

/-- The evidence-assembly part of the source's `F_Data` (lines 250-322
plus the saved-path computation): normalize the input, extract the host
(the platform URL parser throwing is the `InvalidTarget` failure), then
run the DNS, GEO, HTTP, TLS and WHOIS blocks, each converting its failure
into an error entry and an absent field, and assemble the `RawData`
record with `savedFilePath = output/rawdata-<domain>-<stamp>.txt`.  This
part never fails after the URL parse; the full `F_Data` below adds the
report-file write. -/
def F_DataEvidence (w : World) (getHost : String → Option String) (urlClick : String) :
    Except String RawData :=
  let targetUrl := normalizeUrl urlClick
  match getHost targetUrl with
  | none => Except.error "InvalidTarget"
  | some host =>
    let whoisDomain := stripWww host
    let dnsR := dnsStep w host
    let ips := dnsR.1
    let geoR := geoPart w ips
    let httpR := httpPart w targetUrl
    let tlsR := tlsPart w host
    let whoisR := whoisPart w whoisDomain
    let errors := dnsR.2 ++ geoR.2 ++ httpR.2 ++ tlsR.2 ++ whoisR.2
    let savedFilePath :=
      "output/rawdata-" ++ safeFilename whoisDomain ++ "-" ++ w.stamp ++ ".txt"
    Except.ok
      ⟨targetUrl, host, whoisDomain, ips, geoR.1, httpR.1, tlsR.1, whoisR.1,
        errors, savedFilePath⟩

/-- `F_Data` from the source in full: the evidence assembly above followed
by the report-file write (`await fs.mkdir(outDir, ...)` and
`await fs.writeFile(savedFilePath, ...)`, lines 324-342).  Neither call is
wrapped in try/catch, so a file-system rejection propagates out of
`F_Data` to its caller even after a successful URL parse; on a successful
write the assembled evidence is returned unchanged. -/
def F_Data (w : World) (getHost : String → Option String) (urlClick : String) :
    Except String RawData :=
  match F_DataEvidence w getHost urlClick with
  | Except.error e => Except.error e
  | Except.ok d =>
    match w.fsWrite d.savedFilePath with
    | Except.ok _ => Except.ok d
    | Except.error e => Except.error e

-- -------------------------------
-- Spec-side definitions for comparison
-- -------------------------------

/-- Written from the claim's words: the count of absent optional fields
among `geo`, `http`, `tls`, `whois`; the claim's adjustment for a geo
skipped for lack of IPs still predicts exactly one entry (the DNS failure
itself) for the combined DNS-and-geo outcome, so the claimed `errors`
length is this count in that case as well. -/
def claimedErrorCount (d : RawData) : Nat :=
  (if d.geo.isNone then 1 else 0) + (if d.http.isNone then 1 else 0) +
    (if d.tls.isNone then 1 else 0) + (if d.whois.isNone then 1 else 0)

/-- The number of error entries `F_Data` actually records, read off the
world's outcomes: one for a DNS exception, one more for an empty address
list, one per failed geolocation provider attempt on the first IP, and
one per failed HTTP, TLS and WHOIS lookup. -/
def expectedErrorCount (w : World) (targetUrl host : String) : Nat :=
  let ips := (dnsStep w host).1
  (if isOkE (w.dns host) then 0 else 1) +
    (match ips with
     | [] => 1
     | ip :: _ =>
       (if w.ipinfoToken ≠ "" ∧ ¬ isOkE (w.ipinfo ip) = true then 1 else 0) +
         (if (w.ipinfoToken = "" ∨ ¬ isOkE (w.ipinfo ip) = true) ∧
              ¬ isOkE (w.fallback ip) = true then 1 else 0)) +
    (if isOkE (w.http targetUrl) then 0 else 1) +
    (if isOkE (w.tlsCert host) then 0 else 1) +
    (if isOkE (w.whoisQ (stripWww host)) then 0 else 1)

-- -------------------------------
-- Concrete instances used by witnesses and counterexamples
-- -------------------------------

/-- A host parser succeeding on every string (URL parsing is a platform
primitive, so theorems quantify over the parser; witnesses fix one). -/
def pFix : String → Option String := fun _ => some "example.com"

/-- A host parser rejecting every string. -/
def pNone : String → Option String := fun _ => none

/-- A concrete TLS record. -/
def tlsEx : TlsInfo := ⟨none, none, none, none, none⟩

/-- A concrete successful HTTP probe. -/
def httpEx : HttpInfo := ⟨200, 120, "https://example.com", []⟩

/-- Evidence for a fully healthy scan. -/
def dGood : RawData :=
  ⟨"https://example.com", "example.com", "example.com", ["93.184.216.34"],
    none, some httpEx, some tlsEx, some [], [], "output/r.txt"⟩

/-- Evidence for a scan where everything failed. -/
def dAllBad : RawData :=
  ⟨"http://bad.example", "bad.example", "bad.example", [],
    none, none, none, none, ["IP ERROR: boom"], "output/r.txt"⟩

/-- A concrete geolocation payload. -/
def geoDataEx : GeoData := ⟨some "City", some "Region", some "Country", some "ISP"⟩

/-- A world where every lookup and the report write succeed and a
credential is configured. -/
def wOk : World :=
  ⟨"tok", fun _ => Except.ok ["93.184.216.34"], fun _ => Except.ok geoDataEx,
    fun _ => Except.ok geoDataEx, fun _ => Except.ok httpEx,
    fun _ => Except.ok tlsEx, fun _ => Except.ok [],
    fun _ => Except.ok (), "20260101-000000"⟩

/-- A world identical to `wOk` except that `dns.lookup` throws and no
geolocation credential is configured. -/
def wDnsErr : World :=
  { wOk with ipinfoToken := "", dns := fun _ => Except.error "boom" }

/-- A world identical to `wOk` except that the report-file write is
rejected by the file system. -/
def wFsErr : World :=
  { wOk with fsWrite := fun _ => Except.error "EACCES: permission denied" }

/-- Evidence agreeing with `dGood` on every field the scorer reads, but
differing in `geo`, `ips`, `whoisDomain` and `savedFilePath`. -/
def dGood2 : RawData :=
  { dGood with
      geo := some ⟨some "City", none, none, none, some "ipinfo"⟩,
      ips := [], whoisDomain := "other.example", savedFilePath := "other.txt" }

-- -------------------------------
-- Helper lemmas about the scorer blocks
-- -------------------------------

theorem cond1_fst_le (d : RawData) : (cond1 d).1 ≤ 3 := by
  unfold cond1; split <;> simp

theorem cond2_fst_le (d : RawData) : (cond2 d).1 ≤ 2 := by
  rcases hh : d.http with _ | h <;> simp [cond2, hh] <;> split <;> simp

theorem cond3_fst_le (p : String → Option String) (d : RawData) :
    (cond3 p d).1 ≤ 2 := by
  rcases hh : d.http with _ | h <;> simp [cond3, hh]
  split
  · simp
  · rcases hp : p h.finalUrl with _ | fh <;> simp [hp]
    split <;> simp

theorem cond4_fst_le (d : RawData) : (cond4 d).1 ≤ 3 := by
  rcases hh : d.tls with _ | t <;> simp [cond4, hh]

theorem cond5_fst_le (d : RawData) : (cond5 d).1 ≤ 1 := by
  rcases hh : d.whois with _ | wd <;> simp [cond5, hh]

theorem cond6_fst_le (d : RawData) : (cond6 d).1 ≤ 1 := by
  unfold cond6; split <;> simp

theorem cond1_len (d : RawData) : (cond1 d).2.length = 1 := by
  unfold cond1; split <;> simp

theorem cond2_len (d : RawData) : (cond2 d).2.length = 1 := by
  rcases hh : d.http with _ | h <;> simp [cond2, hh]
  split <;> simp

theorem cond3_len_le (p : String → Option String) (d : RawData) :
    (cond3 p d).2.length ≤ 1 := by
  rcases hh : d.http with _ | h <;> simp [cond3, hh]
  split
  · simp
  · rcases hp : p h.finalUrl with _ | fh <;> simp [hp]
    split <;> simp

theorem cond4_len (d : RawData) : (cond4 d).2.length = 1 := by
  rcases hh : d.tls with _ | t <;> simp [cond4, hh]

theorem cond5_len (d : RawData) : (cond5 d).2.length = 1 := by
  rcases hh : d.whois with _ | wd <;> simp [cond5, hh]

theorem cond6_len_le (d : RawData) : (cond6 d).2.length ≤ 1 := by
  unfold cond6; split <;> simp

theorem allReasons_len (p : String → Option String) (d : RawData) :
    4 ≤ (allReasons p d).length ∧ (allReasons p d).length ≤ 6 := by
  have h1 := cond1_len d
  have h2 := cond2_len d
  have h3 := cond3_len_le p d
  have h4 := cond4_len d
  have h5 := cond5_len d
  have h6 := cond6_len_le d
  unfold allReasons
  simp only [List.length_append]
  omega

theorem F_VF_reasons_eq (p : String → Option String) (d : RawData) :
    (F_VF p d).reasons = allReasons p d := by
  have h := allReasons_len p d
  show (allReasons p d).take 8 = allReasons p d
  exact List.take_of_length_le (by omega)

theorem scoreToStarsLabel_buckets (s : Nat) :
    (s ≤ 1 → scoreToStarsLabel s = (5, Label.SAFE)) ∧
    (2 ≤ s ∧ s ≤ 3 → scoreToStarsLabel s = (4, Label.SAFE)) ∧
    (4 ≤ s ∧ s ≤ 5 → scoreToStarsLabel s = (3, Label.CAUTION)) ∧
    (6 ≤ s ∧ s ≤ 7 → scoreToStarsLabel s = (2, Label.RISKY)) ∧
    (8 ≤ s → scoreToStarsLabel s = (1, Label.RISKY)) := by
  unfold scoreToStarsLabel
  refine ⟨fun h => ?_, fun h => ?_, fun h => ?_, fun h => ?_, fun h => ?_⟩ <;>
    split_ifs <;> first | rfl | omega

-- -------------------------------
-- Claim theorems
-- -------------------------------

/-- Claim C1: for every evidence value (and every host parser), the
verdict's stars and label are exactly the star/label ladder applied to the
accumulated risk score, with the fixed inclusive thresholds: score 0-1
gives 5 stars and SAFE, 2-3 gives 4 stars and SAFE, 4-5 gives 3 stars and
CAUTION, 6-7 gives 2 stars and RISKY, and 8 or more gives 1 star and
RISKY. -/
theorem C1_thresholds (p : String → Option String) (d : RawData) :
    ((F_VF p d).stars, (F_VF p d).label) = scoreToStarsLabel (vfScore p d) ∧
    (vfScore p d ≤ 1 →
      (F_VF p d).stars = 5 ∧ (F_VF p d).label = Label.SAFE) ∧
    (2 ≤ vfScore p d ∧ vfScore p d ≤ 3 →
      (F_VF p d).stars = 4 ∧ (F_VF p d).label = Label.SAFE) ∧
    (4 ≤ vfScore p d ∧ vfScore p d ≤ 5 →
      (F_VF p d).stars = 3 ∧ (F_VF p d).label = Label.CAUTION) ∧
    (6 ≤ vfScore p d ∧ vfScore p d ≤ 7 →
      (F_VF p d).stars = 2 ∧ (F_VF p d).label = Label.RISKY) ∧
    (8 ≤ vfScore p d →
      (F_VF p d).stars = 1 ∧ (F_VF p d).label = Label.RISKY) := by
  have hb := scoreToStarsLabel_buckets (vfScore p d)
  have hs : (F_VF p d).stars = (scoreToStarsLabel (vfScore p d)).1 := rfl
  have hl : (F_VF p d).label = (scoreToStarsLabel (vfScore p d)).2 := rfl
  refine ⟨rfl, fun h => ?_, fun h => ?_, fun h => ?_, fun h => ?_, fun h => ?_⟩
  · rw [hs, hl, hb.1 h]; exact ⟨rfl, rfl⟩
  · rw [hs, hl, hb.2.1 h]; exact ⟨rfl, rfl⟩
  · rw [hs, hl, hb.2.2.1 h]; exact ⟨rfl, rfl⟩
  · rw [hs, hl, hb.2.2.2.1 h]; exact ⟨rfl, rfl⟩
  · rw [hs, hl, hb.2.2.2.2 h]; exact ⟨rfl, rfl⟩

/-- Witness for C1 at a concrete evidence value whose score is 10. -/
theorem C1_thresholds_witness :
    (F_VF pNone dAllBad).stars = 1 ∧ (F_VF pNone dAllBad).label = Label.RISKY :=
  (C1_thresholds pNone dAllBad).2.2.2.2.2 (by decide)

/-- Claim C10: for every evidence value, the scorer's reasons list has
between 4 and 6 entries (blocks 1, 2, 4, 5 always append one reason,
blocks 3 and 6 at most one each), so the final `slice(0, 8)` never drops
an entry: the returned list equals the full accumulated list. -/
theorem C10_reasons_length (p : String → Option String) (d : RawData) :
    4 ≤ (F_VF p d).reasons.length ∧ (F_VF p d).reasons.length ≤ 6 ∧
      (F_VF p d).reasons = allReasons p d := by
  have h := allReasons_len p d
  have he := F_VF_reasons_eq p d
  rw [he]
  exact ⟨h.1, h.2, rfl⟩

/-- Counterexample to claim C4: the claim says every Verdict produced by
the scorer carries the accumulated risk score as a field, but the source's
`Verdict` type has exactly the fields `stars`, `label` and `reasons`.  At
the concrete healthy evidence the produced verdict is literally the
three-field record shown, and erasing the spec's score field is not
injective (two spec verdicts differing only in score erase to the same
source verdict), so the source `Verdict` cannot carry the score. -/
theorem C4_counterexample :
    F_VF pFix dGood =
      Verdict.mk 5 Label.SAFE
        ["Uses HTTPS", "HTTP status OK: 200", "TLS certificate present",
          "WHOIS data found"] ∧
    VerdictSpec.eraseScore (VerdictSpec.mk 4 3 Label.CAUTION []) =
      VerdictSpec.eraseScore (VerdictSpec.mk 5 3 Label.CAUTION []) ∧
    (4 : Nat) ≠ 5 := by
  refine ⟨by decide, rfl, by decide⟩

/-- Claim C4 as amended: every Verdict produced by the scorer has stars in
[1,5], a label among SAFE, CAUTION and RISKY, and a reasons sequence of
length at most 8; the accumulated score is a natural number but is not a
field of the verdict — it is only used to derive stars and label. -/
theorem C4_verdict_fields (p : String → Option String) (d : RawData) :
    1 ≤ (F_VF p d).stars ∧ (F_VF p d).stars ≤ 5 ∧
      ((F_VF p d).label = Label.SAFE ∨ (F_VF p d).label = Label.CAUTION ∨
        (F_VF p d).label = Label.RISKY) ∧
      (F_VF p d).reasons.length ≤ 8 := by
  have hs : (F_VF p d).stars = (scoreToStarsLabel (vfScore p d)).1 := rfl
  have hl : (F_VF p d).label = (scoreToStarsLabel (vfScore p d)).2 := rfl
  have hr : (F_VF p d).reasons.length ≤ 8 :=
    List.length_take_le 8 (allReasons p d)
  rw [hs, hl]
  unfold scoreToStarsLabel
  split_ifs <;> simp_all

/-- Counterexample to claim C5: the claim says each of the six scoring
conditions appends exactly one reason whether it penalizes or confirms a
positive signal, which would make every reasons list 6 entries long; at
the concrete healthy evidence blocks 3 (no redirect mismatch) and 6 (no
recorded errors) append nothing and only 4 reasons are produced. -/
theorem C5_counterexample :
    (F_VF pFix dGood).reasons.length = 4 ∧
      (F_VF pFix dGood).reasons.length ≠ 6 := by decide

/-- Claim C5 as amended: the scorer evaluates its six conditions in the
fixed source order — the reasons list is exactly the concatenation of the
six blocks' reasons in that order, untruncated; blocks 1 (scheme), 2
(HTTP), 4 (TLS) and 5 (WHOIS) append exactly one reason each, whether
penalty or positive signal, while block 3 appends one reason only when
`http` is present with a nonempty final URL that is unparseable or names a
different apex-stripped host, and block 6 appends one reason only when at
least one error was recorded. -/
theorem C5_reasons_structure (p : String → Option String) (d : RawData) :
    (F_VF p d).reasons =
      (cond1 d).2 ++ (cond2 d).2 ++ (cond3 p d).2 ++ (cond4 d).2 ++
        (cond5 d).2 ++ (cond6 d).2 ∧
    (cond1 d).2.length = 1 ∧ (cond2 d).2.length = 1 ∧
    (cond4 d).2.length = 1 ∧ (cond5 d).2.length = 1 ∧
    ((cond3 p d).2 ≠ [] ↔
      ∃ h, d.http = some h ∧ h.finalUrl ≠ "" ∧
        ∀ fh, p h.finalUrl = some fh → stripWww fh ≠ stripWww d.host) ∧
    ((cond6 d).2 ≠ [] ↔ d.errors ≠ []) := by
  refine ⟨F_VF_reasons_eq p d, cond1_len d, cond2_len d, cond4_len d,
    cond5_len d, ?_, ?_⟩
  · rcases hh : d.http with _ | h
    · simp [cond3, hh]
    · simp only [cond3, hh]
      by_cases hf : h.finalUrl = ""
      · simp [hf]
      · rcases hp : p h.finalUrl with _ | fh
        · simp [hf, hp]
        · by_cases hm : stripWww fh ≠ stripWww d.host <;> simp_all
  · unfold cond6
    split <;> simp_all

/-- Witness for C5 at concrete evidence: block 6 fires exactly when
errors were recorded. -/
theorem C5_reasons_structure_witness :
    (cond6 dAllBad).2 ≠ [] ∧ (cond6 dGood).2 = [] := by
  have h1 := (C5_reasons_structure pFix dAllBad).2.2.2.2.2.2
  have h2 := (C5_reasons_structure pFix dGood).2.2.2.2.2.2
  refine ⟨h1.mpr (by decide), ?_⟩
  by_contra hne
  exact (by decide : ¬ dGood.errors ≠ []) (h2.mp hne)

/-- Claim C8: the verdict scorer is a pure, deterministic function of its
evidence argument.  In this embedding the scorer is a function, so two
calls on the same value are definitionally equal; the theorem proves the
stronger functional statement that the verdict depends only on the
evidence fields the source reads (`targetUrl`, `host`, `http`, presence of
`tls`, presence of `whois`, number of `errors`): any two evidence values
agreeing there — in particular two calls on the same value — yield
identical verdicts. -/
theorem C8_deterministic (p : String → Option String) (d d' : RawData)
    (h1 : d.targetUrl = d'.targetUrl) (h2 : d.host = d'.host)
    (h3 : d.http = d'.http) (h4 : d.tls.isSome = d'.tls.isSome)
    (h5 : d.whois.isSome = d'.whois.isSome)
    (h6 : d.errors.length = d'.errors.length) :
    F_VF p d = F_VF p d' := by
  have e1 : cond1 d = cond1 d' := by unfold cond1 isHttps; rw [h1]
  have e2 : cond2 d = cond2 d' := by unfold cond2; rw [h3]
  have e3 : cond3 p d = cond3 p d' := by unfold cond3; rw [h3, h2]
  have e4 : cond4 d = cond4 d' := by
    rcases ht : d.tls with _ | t <;> rcases ht' : d'.tls with _ | t' <;>
      simp_all [cond4]
  have e5 : cond5 d = cond5 d' := by
    rcases hw : d.whois with _ | wd <;> rcases hw' : d'.whois with _ | wd' <;>
      simp_all [cond5]
  have e6 : cond6 d = cond6 d' := by unfold cond6; rw [h6]
  unfold F_VF vfScore allReasons
  rw [e1, e2, e3, e4, e5, e6]

/-- Witness for C8: two concrete evidence values that differ in `geo`,
`ips`, `whoisDomain` and `savedFilePath` but agree on everything the
scorer reads produce the same verdict. -/
theorem C8_deterministic_witness : F_VF pFix dGood = F_VF pFix dGood2 :=
  C8_deterministic pFix dGood dGood2 rfl rfl rfl rfl rfl rfl

/-- Claim C9: introducing one additional negative scoring condition while
holding everything else fixed never decreases the risk score.  One
conjunct per negative condition: making the scheme non-https; removing a
healthy `http`; turning a healthy status into an error status; turning a
non-penalized final URL into any other final URL (mismatching or
unparseable); removing `tls`; removing `whois`; making `errors`
non-empty. -/
theorem C9_monotone (p : String → Option String) :
    (∀ (d : RawData) (t : String), isHttps t = false →
      vfScore p d ≤ vfScore p { d with targetUrl := t }) ∧
    (∀ (d : RawData) (h : HttpInfo), h.status < 400 →
      vfScore p { d with http := some h } ≤ vfScore p { d with http := none }) ∧
    (∀ (d : RawData) (h : HttpInfo) (s : Nat), h.status < 400 → 400 ≤ s →
      vfScore p { d with http := some h } ≤
        vfScore p { d with http := some { h with status := s } }) ∧
    (∀ (d : RawData) (h : HttpInfo) (u : String),
      (cond3 p { d with http := some h }).1 = 0 →
      vfScore p { d with http := some h } ≤
        vfScore p { d with http := some { h with finalUrl := u } }) ∧
    (∀ d : RawData, vfScore p d ≤ vfScore p { d with tls := none }) ∧
    (∀ d : RawData, vfScore p d ≤ vfScore p { d with whois := none }) ∧
    (∀ (d : RawData) (es : List String), es ≠ [] →
      vfScore p d ≤ vfScore p { d with errors := es }) := by
  refine ⟨?_, ?_, ?_, ?_, ?_, ?_, ?_⟩
  · intro d t ht
    have ha : (cond1 { d with targetUrl := t }).1 = 3 := by
      simp [cond1, isHttps] at ht ⊢; simp [ht]
    have hb : (cond1 d).1 ≤ 3 := cond1_fst_le d
    have hc : (cond2 { d with targetUrl := t }).1 = (cond2 d).1 := rfl
    have hd : (cond3 p { d with targetUrl := t }).1 = (cond3 p d).1 := rfl
    have he : (cond4 { d with targetUrl := t }).1 = (cond4 d).1 := rfl
    have hf : (cond5 { d with targetUrl := t }).1 = (cond5 d).1 := rfl
    have hg : (cond6 { d with targetUrl := t }).1 = (cond6 d).1 := rfl
    unfold vfScore
    omega
  · intro d h hst
    have ha : (cond2 { d with http := some h }).1 = 0 := by
      simp only [cond2]; rw [if_neg (by omega)]
    have hb : (cond2 { d with http := none }).1 = 2 := rfl
    have hc : (cond3 p { d with http := some h }).1 ≤ 2 :=
      cond3_fst_le p { d with http := some h }
    have hd : (cond3 p { d with http := none }).1 = 0 := rfl
    have he : (cond1 { d with http := some h }).1 =
        (cond1 { d with http := none }).1 := rfl
    have hf : (cond4 { d with http := some h }).1 =
        (cond4 { d with http := none }).1 := rfl
    have hg : (cond5 { d with http := some h }).1 =
        (cond5 { d with http := none }).1 := rfl
    have hi : (cond6 { d with http := some h }).1 =
        (cond6 { d with http := none }).1 := rfl
    unfold vfScore
    omega
  · intro d h s hst hs
    have ha : (cond2 { d with http := some h }).1 = 0 := by
      simp only [cond2]; rw [if_neg (by omega)]
    have hb : (cond2 { d with http := some { h with status := s } }).1 = 2 := by
      simp only [cond2]; rw [if_pos (by omega)]
    have hc : (cond3 p { d with http := some { h with status := s } }).1 =
        (cond3 p { d with http := some h }).1 := rfl
    have he : (cond1 { d with http := some h }).1 =
        (cond1 { d with http := some { h with status := s } }).1 := rfl
    have hf : (cond4 { d with http := some h }).1 =
        (cond4 { d with http := some { h with status := s } }).1 := rfl
    have hg : (cond5 { d with http := some h }).1 =
        (cond5 { d with http := some { h with status := s } }).1 := rfl
    have hi : (cond6 { d with http := some h }).1 =
        (cond6 { d with http := some { h with status := s } }).1 := rfl
    unfold vfScore
    omega
  · intro d h u h3
    have ha : (cond2 { d with http := some { h with finalUrl := u } }).1 =
        (cond2 { d with http := some h }).1 := rfl
    have hb : (cond1 { d with http := some h }).1 =
        (cond1 { d with http := some { h with finalUrl := u } }).1 := rfl
    have hf : (cond4 { d with http := some h }).1 =
        (cond4 { d with http := some { h with finalUrl := u } }).1 := rfl
    have hg : (cond5 { d with http := some h }).1 =
        (cond5 { d with http := some { h with finalUrl := u } }).1 := rfl
    have hi : (cond6 { d with http := some h }).1 =
        (cond6 { d with http := some { h with finalUrl := u } }).1 := rfl
    unfold vfScore
    omega
  · intro d
    have ha : (cond4 { d with tls := none }).1 = 3 := rfl
    have hb : (cond4 d).1 ≤ 3 := cond4_fst_le d
    have hc : (cond1 { d with tls := none }).1 = (cond1 d).1 := rfl
    have hd : (cond2 { d with tls := none }).1 = (cond2 d).1 := rfl
    have he : (cond3 p { d with tls := none }).1 = (cond3 p d).1 := rfl
    have hf : (cond5 { d with tls := none }).1 = (cond5 d).1 := rfl
    have hg : (cond6 { d with tls := none }).1 = (cond6 d).1 := rfl
    unfold vfScore
    omega
  · intro d
    have ha : (cond5 { d with whois := none }).1 = 1 := rfl
    have hb : (cond5 d).1 ≤ 1 := cond5_fst_le d
    have hc : (cond1 { d with whois := none }).1 = (cond1 d).1 := rfl
    have hd : (cond2 { d with whois := none }).1 = (cond2 d).1 := rfl
    have he : (cond3 p { d with whois := none }).1 = (cond3 p d).1 := rfl
    have hf : (cond4 { d with whois := none }).1 = (cond4 d).1 := rfl
    have hg : (cond6 { d with whois := none }).1 = (cond6 d).1 := rfl
    unfold vfScore
    omega
  · intro d es hes
    have ha : (cond6 { d with errors := es }).1 = 1 := by
      simp only [cond6]
      rw [if_pos (by simpa [List.length_eq_zero] using hes)]
    have hb : (cond6 d).1 ≤ 1 := cond6_fst_le d
    have hc : (cond1 { d with errors := es }).1 = (cond1 d).1 := rfl
    have hd : (cond2 { d with errors := es }).1 = (cond2 d).1 := rfl
    have he : (cond3 p { d with errors := es }).1 = (cond3 p d).1 := rfl
    have hf : (cond4 { d with errors := es }).1 = (cond4 d).1 := rfl
    have hg : (cond5 { d with errors := es }).1 = (cond5 d).1 := rfl
    unfold vfScore
    omega

/-- Witness for C9 at concrete evidence: flipping the scheme, the HTTP
status, the TLS field and the errors list one at a time never lowers the
score of the healthy evidence. -/
theorem C9_monotone_witness :
    vfScore pFix dGood ≤ vfScore pFix { dGood with targetUrl := "http://example.com" } ∧
    vfScore pFix { dGood with http := some httpEx } ≤
      vfScore pFix { dGood with http := some { httpEx with status := 404 } } ∧
    vfScore pFix dGood ≤ vfScore pFix { dGood with tls := none } ∧
    vfScore pFix dGood ≤ vfScore pFix { dGood with errors := ["HTTP ERROR: x"] } := by
  have h := C9_monotone pFix
  exact ⟨h.1 dGood "http://example.com" (by decide),
    h.2.2.1 dGood httpEx 404 (by decide) (by decide),
    h.2.2.2.2.1 dGood,
    h.2.2.2.2.2.2 dGood ["HTTP ERROR: x"] (by decide)⟩

-- -------------------------------
-- Helper lemmas about the aggregator blocks
-- -------------------------------

theorem dnsStep_errlen (w : World) (host : String) :
    (dnsStep w host).2.length = if isOkE (w.dns host) then 0 else 1 := by
  unfold dnsStep
  rcases w.dns host with e | rs <;> simp [isOkE]

theorem geoStep_errlen (t : String) (pr fb : Except String GeoData) :
    (geoStep t pr fb).errors.length =
      (if t ≠ "" ∧ ¬ isOkE pr = true then 1 else 0) +
        (if (t = "" ∨ ¬ isOkE pr = true) ∧ ¬ isOkE fb = true then 1 else 0) := by
  by_cases ht : t = "" <;> rcases pr with e | g <;> rcases fb with e' | g' <;>
    simp [geoStep, isOkE, ht]

theorem httpPart_errlen (w : World) (u : String) :
    (httpPart w u).2.length = if isOkE (w.http u) then 0 else 1 := by
  unfold httpPart
  rcases w.http u with e | h <;> simp [isOkE]

theorem tlsPart_errlen (w : World) (host : String) :
    (tlsPart w host).2.length = if isOkE (w.tlsCert host) then 0 else 1 := by
  unfold tlsPart
  rcases w.tlsCert host with e | t <;> simp [isOkE]

theorem whoisPart_errlen (w : World) (dom : String) :
    (whoisPart w dom).2.length = if isOkE (w.whoisQ dom) then 0 else 1 := by
  unfold whoisPart
  rcases w.whoisQ dom with e | d <;> simp [isOkE]

theorem httpPart_isSome (w : World) (u : String) :
    (httpPart w u).1.isSome = isOkE (w.http u) := by
  unfold httpPart
  rcases w.http u with e | h <;> simp [isOkE]

theorem tlsPart_isSome (w : World) (host : String) :
    (tlsPart w host).1.isSome = isOkE (w.tlsCert host) := by
  unfold tlsPart
  rcases w.tlsCert host with e | t <;> simp [isOkE]

theorem whoisPart_isSome (w : World) (dom : String) :
    (whoisPart w dom).1.isSome = isOkE (w.whoisQ dom) := by
  unfold whoisPart
  rcases w.whoisQ dom with e | d <;> simp [isOkE]

/-- Evaluation of the evidence assembly when the URL parser accepts the
normalized target: the evidence record it returns, block by block. -/
theorem F_DataEvidence_ok (w : World) (p : String → Option String) (s host : String)
    (hp : p (normalizeUrl s) = some host) :
    F_DataEvidence w p s = Except.ok
      (RawData.mk (normalizeUrl s) host (stripWww host)
        (dnsStep w host).1
        (geoPart w (dnsStep w host).1).1
        (httpPart w (normalizeUrl s)).1
        (tlsPart w host).1
        (whoisPart w (stripWww host)).1
        ((dnsStep w host).2 ++ (geoPart w (dnsStep w host).1).2 ++
          (httpPart w (normalizeUrl s)).2 ++ (tlsPart w host).2 ++
          (whoisPart w (stripWww host)).2)
        ("output/rawdata-" ++ safeFilename (stripWww host) ++ "-" ++
          w.stamp ++ ".txt")) := by
  unfold F_DataEvidence
  simp only [hp]

/-- Claim C2 as amended: the `errors` list of the evidence returned by the
aggregator has exactly one entry per failed lookup attempt as the code
pushes them — one for a DNS exception plus one more for the resulting
empty address list, one for the no-addresses case even when DNS itself
succeeded, one per failed geolocation provider attempt on the first IP
(so a configured credential whose primary fails contributes an entry even
when the fallback then succeeds), and one per failed HTTP, TLS and WHOIS
lookup — rather than one per absent optional field.  Stated on the
evidence assembly `F_DataEvidence`, which covers every evidence record
`F_Data` can produce (`F_Data` returns a record only when the assembly
produced that same record and the report write then succeeded). -/
theorem C2_error_count (w : World) (p : String → Option String) (s host : String)
    (hp : p (normalizeUrl s) = some host) :
    ∃ d, F_DataEvidence w p s = Except.ok d ∧
      d.errors.length = expectedErrorCount w (normalizeUrl s) host := by
  refine ⟨_, F_DataEvidence_ok w p s host hp, ?_⟩
  show ((dnsStep w host).2 ++ (geoPart w (dnsStep w host).1).2 ++
      (httpPart w (normalizeUrl s)).2 ++ (tlsPart w host).2 ++
      (whoisPart w (stripWww host)).2).length =
    expectedErrorCount w (normalizeUrl s) host
  unfold expectedErrorCount
  simp only [List.length_append]
  rw [dnsStep_errlen, httpPart_errlen, tlsPart_errlen, whoisPart_errlen]
  rcases hips : (dnsStep w host).1 with _ | ⟨ip, rest⟩
  · simp only [geoPart, hips, List.length_singleton]
  · simp only [geoPart, hips]
    rw [geoStep_errlen]

/-- Witness for C2 at a concrete world whose DNS lookup throws: the
aggregator records two error entries. -/
theorem C2_error_count_witness :
    ∃ d, F_DataEvidence wDnsErr pFix "example.com" = Except.ok d ∧
      d.errors.length = 2 := by
  obtain ⟨d, hd, hl⟩ :=
    C2_error_count wDnsErr pFix "example.com" "example.com" (by decide)
  exact ⟨d, hd, by rw [hl]; decide⟩

/-- Counterexample to claim C2: in a world where `dns.lookup` throws and
every other lookup succeeds, the code records two error entries — the
`IP ERROR` from the DNS exception and the separate
`No IP addresses resolved from DNS` entry pushed when geolocation is
skipped — while the claim's count (absent optional fields among geo,
http, tls, whois, with the skipped geo counting as the single DNS failure
entry) predicts one. -/
theorem C2_counterexample :
    (okValue (F_Data wDnsErr pFix "example.com")).map
        (fun d => (d.errors.length, claimedErrorCount d)) = some (2, 1) ∧
      (2 : Nat) ≠ 1 := by
  refine ⟨by decide, by decide⟩

/-- Inversion for the full aggregator: a returned evidence record is the
one the evidence assembly produced, and the report write succeeded. -/
theorem F_Data_ok_evidence (w : World) (p : String → Option String) (s : String)
    (d : RawData) (hd : F_Data w p s = Except.ok d) :
    F_DataEvidence w p s = Except.ok d ∧
      isOkE (w.fsWrite d.savedFilePath) = true := by
  unfold F_Data at hd
  rcases hev : F_DataEvidence w p s with e | d'
  · simp only [hev] at hd
    exact absurd hd (by simp)
  · simp only [hev] at hd
    rcases hfs : w.fsWrite d'.savedFilePath with e | u
    · simp only [hfs] at hd
      exact absurd hd (by simp)
    · simp only [hfs] at hd
      have hdd : d' = d := by injection hd
      subst hdd
      exact ⟨rfl, by rw [hfs]; rfl⟩

/-- Counterexample to claim C3: the claim says the only condition on
which `F_Data` can fail is the initial `InvalidTarget` from target
resolution, but the source's `fs.mkdir`/`fs.writeFile` calls are not
wrapped in any try/catch — in a world where the URL parser accepts and
every sub-lookup succeeds but the file system rejects the report write,
`F_Data` propagates the file-system error to its caller. -/
theorem C3_counterexample :
    pFix (normalizeUrl "example.com") = some "example.com" ∧
    F_Data wFsErr pFix "example.com" =
      Except.error "EACCES: permission denied" ∧
    "EACCES: permission denied" ≠ "InvalidTarget" := by
  refine ⟨rfl, rfl, by decide⟩

/-- Claim C3 as amended: the aggregator is total with respect to
sub-lookup failures — the evidence assembly never fails after the URL
parse, every DNS, geolocation, HTTP, TLS and WHOIS failure being
converted at its boundary into an error entry plus an absent optional
field — but `F_Data` has exactly two failure modes: the initial
`InvalidTarget` when the platform URL parser rejects the normalized
target, and the uncaught file-system rejection of the report write.  On
success, `http`, `tls` and `whois` are present exactly when their lookups
succeeded, `ips` and `geo` come from the DNS and GEO blocks, and the
error list is exactly the concatenation of the five blocks' entries. -/
theorem C3_failure_modes (w : World) (p : String → Option String) (s : String) :
    (isOkE (F_DataEvidence w p s) = (p (normalizeUrl s)).isSome) ∧
    (p (normalizeUrl s) = none → F_Data w p s = Except.error "InvalidTarget") ∧
    (∀ d, F_DataEvidence w p s = Except.ok d →
      (w.fsWrite d.savedFilePath = Except.ok () → F_Data w p s = Except.ok d) ∧
      (∀ e, w.fsWrite d.savedFilePath = Except.error e →
        F_Data w p s = Except.error e)) ∧
    (∀ d, F_Data w p s = Except.ok d →
      d.targetUrl = normalizeUrl s ∧
      d.ips = (dnsStep w d.host).1 ∧
      d.geo = (geoPart w d.ips).1 ∧
      d.http = (httpPart w d.targetUrl).1 ∧
      d.tls = (tlsPart w d.host).1 ∧
      d.whois = (whoisPart w d.whoisDomain).1 ∧
      d.http.isSome = isOkE (w.http d.targetUrl) ∧
      d.tls.isSome = isOkE (w.tlsCert d.host) ∧
      d.whois.isSome = isOkE (w.whoisQ d.whoisDomain) ∧
      d.errors = (dnsStep w d.host).2 ++ (geoPart w d.ips).2 ++
        (httpPart w d.targetUrl).2 ++ (tlsPart w d.host).2 ++
        (whoisPart w d.whoisDomain).2) := by
  have hmid : ∀ d, F_DataEvidence w p s = Except.ok d →
      (w.fsWrite d.savedFilePath = Except.ok () → F_Data w p s = Except.ok d) ∧
      (∀ e, w.fsWrite d.savedFilePath = Except.error e →
        F_Data w p s = Except.error e) := by
    intro d hd
    constructor
    · intro hw
      simp only [F_Data, hd, hw]
    · intro e he
      simp only [F_Data, hd, he]
  rcases hp : p (normalizeUrl s) with _ | host
  · refine ⟨by simp [F_DataEvidence, hp, isOkE], ?_, hmid, ?_⟩
    · intro _
      simp [F_Data, F_DataEvidence, hp]
    · intro d hd
      simp [F_Data, F_DataEvidence, hp] at hd
  · have hev := F_DataEvidence_ok w p s host hp
    refine ⟨by rw [hev]; simp [isOkE, hp], ?_, hmid, ?_⟩
    · intro h
      exact absurd h (by simp)
    · intro d hd
      have hevd := (F_Data_ok_evidence w p s d hd).1
      rw [hev] at hevd
      obtain rfl := (Except.ok.injEq _ _).mp hevd |>.symm
      refine ⟨rfl, rfl, rfl, rfl, rfl, rfl, httpPart_isSome w _,
        tlsPart_isSome w _, whoisPart_isSome w _, by simp⟩

/-- Witness for C3: a rejecting parser yields `InvalidTarget`; with an
accepting parser and a succeeding write, `F_Data` returns evidence whose
`http` field presence matches the HTTP lookup outcome. -/
theorem C3_failure_modes_witness :
    F_Data wOk pNone "example.com" = Except.error "InvalidTarget" ∧
    ∃ d, F_Data wOk pFix "example.com" = Except.ok d ∧
      d.http.isSome = isOkE (wOk.http d.targetUrl) := by
  have h1 := C3_failure_modes wOk pNone "example.com"
  have h2 := C3_failure_modes wOk pFix "example.com"
  refine ⟨h1.2.1 rfl, ?_⟩
  rcases hev : F_DataEvidence wOk pFix "example.com" with e | d
  · have hok := h2.1
    rw [hev] at hok
    simp [isOkE, pFix] at hok
  · have hc := (h2.2.2.1 d hev).1 rfl
    exact ⟨d, hc, ((h2.2.2.2 d hc).2.2.2.2.2.2.1)⟩

/-- Claim C6: with at least one resolved address, the credentialed
primary provider (ipinfo) is attempted iff a credential is configured;
the fallback (ipwho.is) is attempted iff the credential is missing or the
primary failed; a primary success short-circuits (the fallback is not
attempted and its value is used); a fallback success after that is used;
and `geo` is absent only when every attempted provider failed.  `F_Data`
invokes this step (`geoStep`, via `geoPart`) exactly once, on the first
resolved IP — there is no retry loop. -/
theorem C6_geo_policy (t : String) (pr fb : Except String GeoData) :
    ((geoStep t pr fb).triedPrimary = true ↔ t ≠ "") ∧
    ((geoStep t pr fb).triedFallback = true ↔ (t = "" ∨ isOkE pr = false)) ∧
    (∀ g, t ≠ "" → pr = Except.ok g →
      geoStep t pr fb =
        ⟨some (withSource g "ipinfo"), [], true, false⟩) ∧
    (∀ g, (t = "" ∨ isOkE pr = false) → fb = Except.ok g →
      (geoStep t pr fb).geo = some (withSource g "ipwho.is")) ∧
    ((geoStep t pr fb).geo = none ↔
      ((t = "" ∨ isOkE pr = false) ∧ isOkE fb = false)) := by
  by_cases ht : t = "" <;> rcases pr with e | g <;> rcases fb with e' | g' <;>
    simp [geoStep, isOkE, ht]

/-- Witness for C6: with a configured credential and a successful primary
the fallback is not attempted; without a credential the fallback result
is used. -/
theorem C6_geo_policy_witness :
    geoStep "tok" (Except.ok geoDataEx) (Except.error "x") =
      ⟨some (withSource geoDataEx "ipinfo"), [], true, false⟩ ∧
    (geoStep "" (Except.error "e") (Except.ok geoDataEx)).geo =
      some (withSource geoDataEx "ipwho.is") := by
  have h1 := C6_geo_policy "tok" (Except.ok geoDataEx) (Except.error "x")
  have h2 := C6_geo_policy "" (Except.error "e") (Except.ok geoDataEx)
  exact ⟨h1.2.2.1 geoDataEx (by decide) rfl,
    h2.2.2.2.1 geoDataEx (Or.inl rfl) rfl⟩

/-- Counterexample to claim C7: `normalizeUrl` trims its input before
testing for a scheme, so for an input with a leading space the result is
not `https://` prepended to the unchanged input. -/
theorem C7_counterexample :
    normalizeUrl " example.com" = "https://example.com" ∧
      "https://example.com" ≠ "https://" ++ " example.com" := by
  refine ⟨by decide, by decide⟩

/-- Claim C7 as amended: the input is first trimmed of surrounding
whitespace; for every trim-invariant string (no leading or trailing
whitespace) the original claim holds — without a case-insensitive
`http://`/`https://` scheme the result is exactly `https://` prepended to
the otherwise unchanged string, and with such a scheme the string is
returned unchanged. -/
theorem C7_normalize (s : String) (hs : jsTrim s = s) :
    (hasHttpScheme s = false → normalizeUrl s = "https://" ++ s) ∧
    (hasHttpScheme s = true → normalizeUrl s = s) := by
  constructor <;> intro h <;> unfold normalizeUrl <;> rw [hs] <;> simp [h]

/-- Witness for C7 on two concrete inputs, one without and one with a
scheme (upper-case, exercising the case-insensitive match). -/
theorem C7_normalize_witness :
    normalizeUrl "example.com" = "https://example.com" ∧
      normalizeUrl "HTTP://EXAMPLE.COM" = "HTTP://EXAMPLE.COM" := by
  refine ⟨(C7_normalize "example.com" (by decide)).1 (by decide),
    (C7_normalize "HTTP://EXAMPLE.COM" (by decide)).2 (by decide)⟩

end SafeLink
